import Mathlib

/-!
Verification of the graph-to-SQL compiler in `src-tauri/src/query_builder.rs`
(streaksight repository).

The Rust code is shallowly embedded as executable Lean definitions:

* `serde_json::Value` is modelled by `Json` (numbers restricted to integers,
  which covers every value the reviewed code and tests exercise);
* each node payload struct is a constructor of `NodeData`; a node whose
  `type` string does not match the shape of its `data` stands for a serde
  parse failure, mapped to an `Except.error` with an abbreviated message
  (the exact serde text is irrelevant to every property proved below);
* the `sqlparser` AST fragments actually constructed by the code are
  modelled by `SqlExpr` / `SelectItemAst` / `SelectAst` / `QueryAst`, and
  `renderQuery` reproduces the `Display` output of those fragments
  (identifiers bare, string literals single-quoted with `'` doubled,
  `NOT` and `IN` spacing, clause order
  SELECT/FROM/WHERE/GROUP BY/ORDER BY/LIMIT).
  `Parser::parse_sql(&dialect, "SELECT * FROM {t}")` is modelled by
  `parse_base_sql`: table names accepted by the conservative predicate
  `isBareIdent` yield the base AST `SELECT * FROM t`, every other name is
  routed to the `Failed to parse base SQL` error branch. The real parser may
  fail on such names ("users where") or parse a different statement ("a b"
  becomes an alias), so every theorem asserting a successful render carries
  `isBareIdent` as a hypothesis, and no theorem depends on the model's
  behaviour outside that domain;
* the unbounded backward walk `build_path` is modelled by the fuel-indexed
  `buildPathAux`; `none` models non-termination.  A terminating walk visits
  pairwise distinct existing node ids plus at most one missing id, so
  `nodes.length + 1` steps of fuel are sufficient for every halting walk.
-/

/-- Model of `serde_json::Value` (numbers restricted to integers). -/
inductive Json where
  | null : Json
  | bool : Bool → Json
  | num : Int → Json
  | str : String → Json
  | arr : List Json → Json
  | obj : List (String × Json) → Json

/-- True exactly on JSON arrays. -/
def Json.isArr : Json → Bool
  | .arr _ => true
  | _ => false

inductive OrderDirection where
  | asc : OrderDirection
  | desc : OrderDirection
deriving DecidableEq

structure OrderByData where
  column : String
  direction : OrderDirection
deriving DecidableEq

inductive FilterOperator where
  | eq : FilterOperator
  | notEq : FilterOperator
  | gt : FilterOperator
  | lt : FilterOperator
  | gtEq : FilterOperator
  | ltEq : FilterOperator
  | inOp : FilterOperator
deriving DecidableEq

structure FilterCondition where
  column : String
  operator : FilterOperator
  value : Json
  negate : Bool

inductive AggregateFunction where
  | countAll : AggregateFunction
  | count : AggregateFunction
  | sum : AggregateFunction
  | avg : AggregateFunction
  | max : AggregateFunction
  | min : AggregateFunction
deriving DecidableEq

structure Metric where
  function : AggregateFunction
  column : String
deriving DecidableEq

structure AggregationNodeData where
  dimensions : List String
  metrics : List Metric
deriving DecidableEq

/-- The parsed payload of a node, one constructor per node kind. -/
inductive NodeData where
  | table : String → NodeData
  | select : List String → NodeData
  | sort : List OrderByData → NodeData
  | limit : Option Int → NodeData
  | filter : List FilterCondition → NodeData
  | aggregation : List String → List Metric → NodeData

structure Node where
  id : String
  node_type : String
  data : NodeData

structure Edge where
  source : String
  target : String

structure NodeGraph where
  selected_node_id : String
  nodes : List Node
  edges : List Edge

/-! ### The sqlparser AST fragments built by the code, and their rendering -/

inductive SqlValue where
  | singleQuotedString : String → SqlValue
  | number : String → SqlValue
  | boolean : Bool → SqlValue

inductive SqlBinaryOperator where
  | eq : SqlBinaryOperator
  | notEq : SqlBinaryOperator
  | gt : SqlBinaryOperator
  | lt : SqlBinaryOperator
  | gtEq : SqlBinaryOperator
  | ltEq : SqlBinaryOperator
  | and : SqlBinaryOperator

inductive SqlExpr where
  | identifier : String → SqlExpr
  | value : SqlValue → SqlExpr
  | binaryOp : SqlExpr → SqlBinaryOperator → SqlExpr → SqlExpr
  | inList : SqlExpr → List SqlExpr → SqlExpr
  | unaryNot : SqlExpr → SqlExpr
  | funcWildcard : String → SqlExpr
  | funcColumn : String → String → SqlExpr

inductive SelectItemAst where
  | wildcard : SelectItemAst
  | unnamedExpr : SqlExpr → SelectItemAst

structure SelectAst where
  projection : List SelectItemAst
  table : String
  selection : Option SqlExpr
  group_by : List SqlExpr

structure OrderByExprAst where
  column : String
  asc : Option Bool

structure QueryAst where
  body : SelectAst
  order_by : Option (List OrderByExprAst)
  limit : Option Int

/-- sqlparser escapes an embedded single quote by doubling it. -/
def escapeSingleQuote (s : String) : String :=
  String.join (s.toList.map (fun ch =>
    if ch = Char.ofNat 39 then "\x27\x27" else String.mk [ch]))

def renderValue : SqlValue → String
  | .singleQuotedString s => "\x27" ++ escapeSingleQuote s ++ "\x27"
  | .number s => s
  | .boolean b => if b then "true" else "false"

def renderBinaryOperator : SqlBinaryOperator → String
  | .eq => "="
  | .notEq => "<>"
  | .gt => ">"
  | .lt => "<"
  | .gtEq => ">="
  | .ltEq => "<="
  | .and => "AND"

mutual

def renderExpr : SqlExpr → String
  | .identifier s => s
  | .value v => renderValue v
  | .binaryOp l op r => renderExpr l ++ " " ++ renderBinaryOperator op ++ " " ++ renderExpr r
  | .inList e list =>
      renderExpr e ++ " IN (" ++ String.intercalate ", " (renderExprList list) ++ ")"
  | .unaryNot e => "NOT " ++ renderExpr e
  | .funcWildcard name => name ++ "(*)"
  | .funcColumn name col => name ++ "(" ++ col ++ ")"

/-- Renders every element of an IN list (the element-wise display of the
`Vec<Expr>` carried by `Expr::InList`). -/
def renderExprList : List SqlExpr → List String
  | [] => []
  | e :: es => renderExpr e :: renderExprList es

end

def renderSelectItem : SelectItemAst → String
  | .wildcard => "*"
  | .unnamedExpr e => renderExpr e

def renderProjection (items : List SelectItemAst) : String :=
  String.intercalate ", " (items.map renderSelectItem)

def renderWhere : Option SqlExpr → String
  | some e => " WHERE " ++ renderExpr e
  | none => ""

def renderGroupBy (exprs : List SqlExpr) : String :=
  if exprs.isEmpty then ""
  else " GROUP BY " ++ String.intercalate ", " (exprs.map renderExpr)

def renderOrderByItem (o : OrderByExprAst) : String :=
  o.column ++ (match o.asc with
    | some true => " ASC"
    | some false => " DESC"
    | none => "")

def renderOrderBy : Option (List OrderByExprAst) → String
  | some xs => " ORDER BY " ++ String.intercalate ", " (xs.map renderOrderByItem)
  | none => ""

def renderLimit : Option Int → String
  | some n => " LIMIT " ++ toString n
  | none => ""

def renderQuery (q : QueryAst) : String :=
  "SELECT " ++ renderProjection q.body.projection ++ " FROM " ++ q.body.table
    ++ renderWhere q.body.selection ++ renderGroupBy q.body.group_by
    ++ renderOrderBy q.order_by ++ renderLimit q.limit

/-! ### Filter-condition translation (`parse_value`, `parse_array_values`,
`is_empty_value`, `condition_to_expr`, `build_where_expr`) -/

/-- `Result`-collecting map, mirroring `iter().map(f).collect::<Result<Vec<_>, _>>()`. -/
def collectResults (f : α → Except String β) : List α → Except String (List β)
  | [] => .ok []
  | a :: l =>
    match f a with
    | .error e => .error e
    | .ok b =>
      match collectResults f l with
      | .error e => .error e
      | .ok bs => .ok (b :: bs)

def parse_value (value : Json) : Except String SqlExpr :=
  match value with
  | .str s => .ok (.value (.singleQuotedString s))
  | .num n => .ok (.value (.number (toString n)))
  | .bool b => .ok (.value (.boolean b))
  | _ => .error "Unsupported value type"

def parse_array_values (value : Json) : Except String (List SqlExpr) :=
  match value with
  | .arr arr => collectResults parse_value arr
  | _ => .error "Expected array for \x27in\x27 operator"

mutual

def is_empty_value : Json → Bool
  | .str s => s.isEmpty
  | .arr arr => arr.isEmpty || is_empty_value_all arr
  | _ => false

/-- Models `arr.iter().all(is_empty_value)`. -/
def is_empty_value_all : List Json → Bool
  | [] => true
  | v :: vs => is_empty_value v && is_empty_value_all vs

end

def filter_operator_to_binary_operator : FilterOperator → Option SqlBinaryOperator
  | .eq => some .eq
  | .notEq => some .notEq
  | .gt => some .gt
  | .lt => some .lt
  | .gtEq => some .gtEq
  | .ltEq => some .ltEq
  | .inOp => none

def condition_to_expr (condition : FilterCondition) : Except String SqlExpr :=
  let column_expr := SqlExpr.identifier condition.column
  let base : Except String SqlExpr :=
    match filter_operator_to_binary_operator condition.operator with
    | some binary_op =>
      match parse_value condition.value with
      | .error e => .error e
      | .ok v => .ok (.binaryOp column_expr binary_op v)
    | none =>
      match parse_array_values condition.value with
      | .error e => .error e
      | .ok values => .ok (.inList column_expr values)
  match base with
  | .error e => .error e
  | .ok base_expr =>
    if condition.negate then .ok (.unaryNot base_expr) else .ok base_expr

def build_where_expr (conditions : List FilterCondition) : Except String SqlExpr :=
  if conditions.isEmpty then .error "No filter conditions provided"
  else
    let valid_conditions := conditions.filter (fun c => !is_empty_value c.value)
    if valid_conditions.isEmpty then
      .error "No valid filter conditions (all have empty values)"
    else
      match collectResults condition_to_expr valid_conditions with
      | .error e => .error e
      | .ok exprs =>
        match exprs with
        | [] => .error "No valid filter conditions (all have empty values)"
        | e0 :: rest =>
          .ok (rest.foldl (fun result expr => SqlExpr.binaryOp result .and expr) e0)

/-! ### Aggregation projection -/

def aggregate_function_name : AggregateFunction → String
  | .countAll => "COUNT"
  | .count => "COUNT"
  | .sum => "SUM"
  | .avg => "AVG"
  | .max => "MAX"
  | .min => "MIN"

def create_aggregate_function (metric : Metric) : Except String SqlExpr :=
  match metric.function with
  | .countAll => .ok (.funcWildcard (aggregate_function_name metric.function))
  | _ => .ok (.funcColumn (aggregate_function_name metric.function) metric.column)

def build_aggregation_projection (agg : AggregationNodeData) :
    Except String (List SelectItemAst) :=
  match collectResults create_aggregate_function agg.metrics with
  | .error e => .error e
  | .ok metricExprs =>
    .ok (agg.dimensions.map (fun dim => SelectItemAst.unnamedExpr (.identifier dim))
          ++ metricExprs.map SelectItemAst.unnamedExpr)

/-! ### The node-visiting loop of `generate_sql` -/

structure InterpState where
  table_name : String
  columns : List String
  order_by_list : List OrderByData
  limit_value : Option Int
  filter_conditions : List FilterCondition
  aggregation_data : Option AggregationNodeData
  has_select_before_aggregation : Bool

def initState : InterpState :=
  { table_name := ""
    columns := []
    order_by_list := []
    limit_value := none
    filter_conditions := []
    aggregation_data := none
    has_select_before_aggregation := false }

def stepNode (st : InterpState) (node : Node) : Except String InterpState :=
  match node.node_type with
  | "table" =>
    match node.data with
    | .table table_name => .ok { st with table_name := table_name }
    | _ => .error "Failed to parse table node data"
  | "select" =>
    match node.data with
    | .select columns =>
      .ok { st with
              columns := columns
              has_select_before_aggregation :=
                if st.aggregation_data.isNone then true
                else st.has_select_before_aggregation }
    | _ => .error "Failed to parse select node data"
  | "sort" =>
    match node.data with
    | .sort order => .ok { st with order_by_list := order }
    | _ => .error "Failed to parse sort node data"
  | "limit" =>
    match node.data with
    | .limit limit => .ok { st with limit_value := limit }
    | _ => .error "Failed to parse limit node data"
  | "filter" =>
    match node.data with
    | .filter conditions =>
      .ok { st with filter_conditions := st.filter_conditions ++ conditions }
    | _ => .error "Failed to parse filter node data"
  | "aggregation" =>
    match node.data with
    | .aggregation dimensions metrics =>
      if st.has_select_before_aggregation then
        .error "Cannot use Aggregation after Select node. Please remove the Select node or reorder the nodes."
      else
        .ok { st with
                aggregation_data := some { dimensions := dimensions, metrics := metrics } }
    | _ => .error "Failed to parse aggregation node data"
  | other => .error ("Unsupported node type: " ++ other)

/-- The `for node in &path` loop of `generate_sql`. -/
def runNodes (st : InterpState) : List Node → Except String InterpState
  | [] => .ok st
  | n :: rest =>
    match stepNode st n with
    | .error e => .error e
    | .ok st' => runNodes st' rest

/-! ### AST construction and rendering stage of `generate_sql` -/

def isBareIdentStart (c : Char) : Bool :=
  c.isLower || c == Char.ofNat 95

def isBareIdentChar (c : Char) : Bool :=
  c.isLower || c.isDigit || c == Char.ofNat 95

/-- A (generous) list of SQL reserved words, all lowercase. Used only to
shrink the domain of `isBareIdent` below; erring on the side of listing too
many words keeps the under-approximation sound. -/
def reservedKeywords : List String :=
  ["all", "alter", "and", "any", "as", "asc", "between", "both", "by", "case",
   "cast", "check", "collate", "column", "constraint", "create", "cross",
   "current_date", "current_time", "current_timestamp", "default", "delete",
   "desc", "describe", "distinct", "drop", "else", "end", "except", "exists",
   "false", "fetch", "for", "foreign", "from", "full", "group", "having",
   "in", "inner", "insert", "intersect", "into", "is", "join", "json_table",
   "lateral", "leading", "left", "like", "limit", "matched", "natural", "not",
   "null", "offset", "on", "or", "order", "outer", "pivot", "primary",
   "qualify", "right", "sample", "select", "set", "some", "table", "tablesample",
   "then", "trailing", "true", "union", "unique", "unnest", "unpivot",
   "update", "using", "values", "when", "where", "window", "with", "xmltable"]

/-- A conservative under-approximation of the table names `t` for which
`Parser::parse_sql(&DuckDbDialect, "SELECT * FROM {t}")` succeeds and yields
precisely the plain statement `SELECT * FROM t` with `t` as a single bare
identifier: a non-empty run of lowercase ASCII letters, digits and
underscores, starting with a letter or underscore, and not a reserved word.
Such a string is lexed as one unquoted word token, parsed as the bare table
name, and printed back verbatim. Names outside this set may make the real
parser fail (for example "users where") or produce a different statement
(for example "a b" parses as the alias `a AS b`); the model routes all of
them to the parse-failure branch, and no theorem below asserts the model's
behaviour outside this set. -/
def isBareIdent (t : String) : Bool :=
  match t.toList with
  | [] => false
  | c :: cs =>
    isBareIdentStart c && cs.all isBareIdentChar && !(reservedKeywords.contains t)

/-- `Parser::parse_sql(&dialect, format!("SELECT * FROM {}", table_name))`
(query_builder.rs:197-204): on the `isBareIdent` domain the result is the
base AST `SELECT * FROM table_name`; every other name is mapped to the
parse-failure branch (the Rust error text continues with the parser message,
elided here). The subsequent `ast.is_empty()` check never fires, since a
successful parse of one SELECT yields exactly one statement. -/
def parse_base_sql (table_name : String) : Except String SelectAst :=
  if isBareIdent table_name then
    .ok { projection := [.wildcard], table := table_name, selection := none, group_by := [] }
  else .error "Failed to parse base SQL"

/-- The projection step of `generate_sql`: parse the base AST
`SELECT * FROM table`, then replace the projection from the aggregation data
or the select columns (aggregation wins when present). -/
def buildProjectedSelect (st : InterpState) : Except String SelectAst :=
  match parse_base_sql st.table_name with
  | .error e => .error e
  | .ok base =>
    match st.aggregation_data with
    | some agg =>
      if !agg.dimensions.isEmpty || !agg.metrics.isEmpty then
        match build_aggregation_projection agg with
        | .error e => .error e
        | .ok proj => .ok { base with projection := proj }
      else .ok base
    | none =>
      if !st.columns.isEmpty then
        .ok { base with
                projection :=
                  st.columns.map (fun col => SelectItemAst.unnamedExpr (.identifier col)) }
      else .ok base

/-- The WHERE step of `generate_sql`: `if !filter_conditions.is_empty() {
if let Ok(where_expr) = build_where_expr(..) { select.selection = Some(..) } }`.
Note that an `Err` of `build_where_expr` leaves the selection untouched. -/
def applyWhere (sel : SelectAst) (filter_conditions : List FilterCondition) : SelectAst :=
  if !filter_conditions.isEmpty then
    match build_where_expr filter_conditions with
    | .ok where_expr => { sel with selection := some where_expr }
    | .error _ => sel
  else sel

/-- The GROUP BY step of `generate_sql`: set `group_by` to the dimension
identifiers when an aggregation with non-empty dimensions is recorded. -/
def applyGroupBy (sel : SelectAst) (aggregation_data : Option AggregationNodeData) :
    SelectAst :=
  match aggregation_data with
  | some agg =>
    if !agg.dimensions.isEmpty then
      { sel with group_by := agg.dimensions.map SqlExpr.identifier }
    else sel
  | none => sel

def buildQueryAst (st : InterpState) : Except String QueryAst :=
  match buildProjectedSelect st with
  | .error e => .error e
  | .ok sel1 =>
    .ok { body := applyGroupBy (applyWhere sel1 st.filter_conditions) st.aggregation_data
          order_by :=
            if !st.order_by_list.isEmpty then
              some (st.order_by_list.map (fun o =>
                { column := o.column
                  asc := some (match o.direction with | .asc => true | .desc => false) }))
            else none
          limit := st.limit_value }

/-- Interpretation and rendering of a resolved path, mirroring the body of
`generate_sql` after `build_path`. -/
def generateSqlFromPath (path : List Node) (pagination : Option (Int × Int)) :
    Except String String :=
  match runNodes initState path with
  | .error e => .error e
  | .ok st =>
    if st.table_name.isEmpty then .error "No table node found in path"
    else
      match buildQueryAst st with
      | .error e => .error e
      | .ok q =>
        let inner_sql := renderQuery q
        match pagination with
        | some (limit, offset) =>
          .ok ("SELECT * FROM (" ++ inner_sql ++ ") AS subquery LIMIT "
                ++ toString limit ++ " OFFSET " ++ toString offset)
        | none => .ok inner_sql

/-! ### `build_path`: the fuel-indexed backward walk -/

def buildPathAux (g : NodeGraph) : Nat → String → List Node → Option (Except String (List Node))
  | 0, _, _ => none
  | fuel + 1, current_id, acc =>
    match g.nodes.find? (fun n => n.id == current_id) with
    | none => some (.error ("Node not found: " ++ current_id))
    | some current_node =>
      match g.edges.find? (fun e => e.target == current_id) with
      | some edge => buildPathAux g fuel edge.source (acc ++ [current_node])
      | none => some (.ok (acc ++ [current_node]).reverse)

def buildPath (g : NodeGraph) : Option (Except String (List Node)) :=
  buildPathAux g (g.nodes.length + 1) g.selected_node_id []

/-- The holds-for-no-fuel predicate: the backward walk of `build_path` never
finishes, however many steps it is allowed. -/
def buildPathDiverges (g : NodeGraph) : Prop :=
  ∀ fuel, buildPathAux g fuel g.selected_node_id [] = none

/-- `generate_sql`; the outer `Option` is `none` exactly when `build_path`
diverges. -/
def generateSql (g : NodeGraph) (pagination : Option (Int × Int)) :
    Option (Except String String) :=
  match buildPath g with
  | none => none
  | some (.error e) => some (.error e)
  | some (.ok path) => some (generateSqlFromPath path pagination)

/-! ### Basic reduction lemmas -/

theorem runNodes_nil (st : InterpState) : runNodes st [] = .ok st := rfl

theorem runNodes_cons (st : InterpState) (n : Node) (rest : List Node) :
    runNodes st (n :: rest) =
      match stepNode st n with
      | .error e => .error e
      | .ok st' => runNodes st' rest := rfl

theorem runNodes_append (l1 l2 : List Node) (st : InterpState) :
    runNodes st (l1 ++ l2) =
      match runNodes st l1 with
      | .error e => .error e
      | .ok st' => runNodes st' l2 := by
  induction l1 generalizing st with
  | nil => rfl
  | cons n rest ih =>
    rw [List.cons_append, runNodes_cons, runNodes_cons]
    cases stepNode st n with
    | error e => rfl
    | ok st' => exact ih st'

/-! ### Concrete graphs used as inputs below -/

def usersTableNode : Node := { id := "1", node_type := "table", data := .table "users" }

/-- A one-node graph: a single table node `users`. -/
def usersGraph : NodeGraph :=
  { selected_node_id := "1", nodes := [usersTableNode], edges := [] }

/-- Table node plus a filter whose single condition uses the `in` operator
with a non-array (plain string, non-empty) value. -/
def c1Graph : NodeGraph :=
  { selected_node_id := "2"
    nodes := [
      usersTableNode,
      { id := "2", node_type := "filter",
        data := .filter [
          { column := "name", operator := .inOp, value := .str "x", negate := false }] }]
    edges := [{ source := "1", target := "2" }] }

/-- Table node plus a filter whose single condition carries an empty string
value, so that dropping empty-valued conditions leaves zero conditions. -/
def c2Graph : NodeGraph :=
  { selected_node_id := "2"
    nodes := [
      usersTableNode,
      { id := "2", node_type := "filter",
        data := .filter [
          { column := "city", operator := .eq, value := .str "", negate := false }] }]
    edges := [{ source := "1", target := "2" }] }

/-- A chain table, aggregation, select (non-empty columns), aggregation:
the select occurs before the second aggregation node in path order. -/
def c4Graph : NodeGraph :=
  { selected_node_id := "4"
    nodes := [
      { id := "1", node_type := "table", data := .table "products" },
      { id := "2", node_type := "aggregation", data := .aggregation ["category"] [] },
      { id := "3", node_type := "select", data := .select ["id"] },
      { id := "4", node_type := "aggregation", data := .aggregation ["category"] [] }]
    edges := [
      { source := "1", target := "2" },
      { source := "2", target := "3" },
      { source := "3", target := "4" }] }

/-- A two-node graph whose edges form a cycle reachable backward from the
selected node. -/
def cyclicGraph : NodeGraph :=
  { selected_node_id := "a"
    nodes := [
      { id := "a", node_type := "table", data := .table "users" },
      { id := "b", node_type := "table", data := .table "users" }]
    edges := [
      { source := "b", target := "a" },
      { source := "a", target := "b" }] }

/-! ### C3: the backward walk is unbounded -/

theorem buildPathAux_mono (g : NodeGraph) :
    ∀ (fuel fuel2 : Nat) (current_id : String) (acc : List Node)
      (r : Except String (List Node)),
      fuel ≤ fuel2 → buildPathAux g fuel current_id acc = some r →
      buildPathAux g fuel2 current_id acc = some r := by
  intro fuel
  induction fuel with
  | zero =>
    intro fuel2 current_id acc r _ h
    simp [buildPathAux] at h
  | succ n ih =>
    intro fuel2 current_id acc r hle h
    obtain ⟨m, rfl⟩ : ∃ m, fuel2 = m + 1 := ⟨fuel2 - 1, by omega⟩
    rw [buildPathAux] at h ⊢
    cases hn : g.nodes.find? (fun node => node.id == current_id) with
    | none => rw [hn] at h; exact h
    | some current_node =>
      rw [hn] at h
      cases he : g.edges.find? (fun e => e.target == current_id) with
      | none => rw [he] at h; exact h
      | some edge =>
        rw [he] at h
        exact ih m edge.source (acc ++ [current_node]) r (by omega) h

theorem cyclicGraph_walk_diverges_aux :
    ∀ (fuel : Nat) (current_id : String) (acc : List Node),
      current_id = "a" ∨ current_id = "b" →
      buildPathAux cyclicGraph fuel current_id acc = none := by
  intro fuel
  induction fuel with
  | zero => intro current_id acc _; rfl
  | succ n ih =>
    intro current_id acc h
    rcases h with rfl | rfl
    · exact ih "b" _ (Or.inr rfl)
    · exact ih "a" _ (Or.inl rfl)

/-- C3 counterexample: on `cyclicGraph` the walk of `build_path` finishes for
no step bound at all (it loops forever), so `generate_sql` yields neither an
SQL string nor a `MalformedGraph` error. -/
theorem build_path_cycle_counterexample :
    buildPathDiverges cyclicGraph ∧ generateSql cyclicGraph none = none := by
  constructor
  · intro fuel
    exact cyclicGraph_walk_diverges_aux fuel "a" [] (Or.inl rfl)
  · rfl

/-- C3 (amended): path resolution is an unbounded backward walk. The code
contains no node-count bound and no `MalformedGraph` error: whenever the walk
finishes within some number of steps, allowing more steps gives the same
result (so no bound is ever enforced), and on a backward-reachable cycle the
walk finishes for no number of steps at all. -/
theorem build_path_unbounded :
    (∀ (g : NodeGraph) (fuel fuel2 : Nat) (current_id : String) (acc : List Node)
        (r : Except String (List Node)),
        fuel ≤ fuel2 → buildPathAux g fuel current_id acc = some r →
        buildPathAux g fuel2 current_id acc = some r)
    ∧ buildPathDiverges cyclicGraph :=
  ⟨buildPathAux_mono,
   fun fuel => cyclicGraph_walk_diverges_aux fuel "a" [] (Or.inl rfl)⟩

theorem build_path_unbounded_witness :
    (1 ≤ 5 ∧ buildPathAux usersGraph 1 "1" [] = some (.ok [usersTableNode]))
    ∧ buildPathAux usersGraph 5 "1" [] = some (.ok [usersTableNode]) :=
  ⟨⟨by omega, rfl⟩,
   build_path_unbounded.1 usersGraph 1 5 "1" [] (.ok [usersTableNode]) (by omega) rfl⟩

/-! ### C1 and C2 counterexamples: WHERE-builder errors are swallowed -/

/-- C1 counterexample: on `c1Graph` the single filter condition uses `in`
with the non-array, non-empty value `"x"`, yet `generate_sql` does not fail:
it returns SQL with the filter silently omitted, because the `Err` of
`build_where_expr` is discarded by the `if let Ok(..)` in `generate_sql`. -/
theorem in_value_swallowed_counterexample :
    generateSql c1Graph none = some (.ok "SELECT * FROM users")
    ∧ is_empty_value (Json.str "x") = false
    ∧ (Json.str "x").isArr = false :=
  ⟨rfl, rfl, rfl⟩

/-- C2 counterexample: on `c2Graph` the only filter condition has the empty
string value, so dropping empty-valued conditions leaves zero conditions;
`generate_sql` does not fail with `NoValidFilters` but returns SQL without a
WHERE clause. -/
theorem no_valid_filters_swallowed_counterexample :
    generateSql c2Graph none = some (.ok "SELECT * FROM users")
    ∧ is_empty_value (Json.str "") = true :=
  ⟨rfl, rfl⟩

/-- C4 counterexample: in `c4Graph` a Select node with the non-empty column
list `["id"]` occurs before an Aggregation node (the second one) in path
order, yet `generate_sql` succeeds: the flag is only consulted while no
aggregation has been recorded, so a select sitting after the first
aggregation never triggers the error. -/
theorem select_before_second_aggregation_counterexample :
    generateSql c4Graph none =
      some (.ok "SELECT category FROM products GROUP BY category") := rfl

/-! ### C6: pagination wrapping -/

/-- C6: whenever the inner query renders to `inner`, the paginated call
returns exactly `SELECT * FROM (inner) AS subquery LIMIT L OFFSET O` —
including when `inner` already ends in its own LIMIT clause, since the
wrapper is pure string concatenation around the fully rendered inner SQL. -/
theorem pagination_wraps_inner :
    ∀ (g : NodeGraph) (limit offset : Int) (inner : String),
      generateSql g none = some (.ok inner) →
      generateSql g (some (limit, offset)) =
        some (.ok ("SELECT * FROM (" ++ inner ++ ") AS subquery LIMIT "
          ++ toString limit ++ " OFFSET " ++ toString offset)) := by
  intro g limit offset inner h
  unfold generateSql at h ⊢
  cases hb : buildPath g with
  | none => rw [hb] at h; exact absurd h (by simp)
  | some r =>
    rw [hb] at h
    cases r with
    | error e => simp at h
    | ok path =>
      simp only [Option.some.injEq] at h
      simp only [Option.some.injEq]
      unfold generateSqlFromPath at h ⊢
      cases hr : runNodes initState path with
      | error e => rw [hr] at h; exact absurd h (by simp)
      | ok st =>
        rw [hr] at h
        simp only at h ⊢
        cases hemp : st.table_name.isEmpty with
        | true => rw [hemp] at h; simp at h
        | false =>
          rw [hemp] at h
          simp only [Bool.false_eq_true, if_false] at h ⊢
          cases hq : buildQueryAst st with
          | error e => rw [hq] at h; exact absurd h (by simp)
          | ok q =>
            rw [hq] at h
            dsimp only at h ⊢
            simp only [Except.ok.injEq] at h
            rw [h]

theorem pagination_wraps_inner_witness :
    generateSql usersGraph none = some (.ok "SELECT * FROM users")
    ∧ generateSql usersGraph (some (100, 0)) =
        some (.ok "SELECT * FROM (SELECT * FROM users) AS subquery LIMIT 100 OFFSET 0") :=
  ⟨rfl, pagination_wraps_inner usersGraph 100 0 "SELECT * FROM users" rfl⟩

/-! ### C8: negate wraps the translated atomic condition in NOT -/

/-- C8: for any condition with `negate: true`, the produced predicate is
exactly the predicate of the same condition without negation, wrapped in a
logical NOT; the comparison operator itself is untouched. -/
theorem negate_wraps_not :
    ∀ (c : FilterCondition) (b : SqlExpr),
      c.negate = true →
      condition_to_expr { c with negate := false } = .ok b →
      condition_to_expr c = .ok (.unaryNot b) := by
  intro c b hneg hbase
  obtain ⟨col, op, v, neg⟩ := c
  simp only at hneg
  subst hneg
  simp only [condition_to_expr] at hbase ⊢
  cases hop : filter_operator_to_binary_operator op with
  | some binary_op =>
    rw [hop] at hbase
    cases hv : parse_value v with
    | error e => rw [hv] at hbase; simp at hbase
    | ok x =>
      rw [hv] at hbase
      simp at hbase
      simp [hbase]
  | none =>
    rw [hop] at hbase
    cases hv : parse_array_values v with
    | error e => rw [hv] at hbase; simp at hbase
    | ok values =>
      rw [hv] at hbase
      simp at hbase
      simp [hbase]

def tokyoCondition : FilterCondition :=
  { column := "city", operator := .eq, value := .str "Tokyo", negate := true }

def tokyoBase : SqlExpr :=
  .binaryOp (.identifier "city") .eq (.value (.singleQuotedString "Tokyo"))

theorem negate_wraps_not_witness :
    (tokyoCondition.negate = true
      ∧ condition_to_expr { tokyoCondition with negate := false } = .ok tokyoBase)
    ∧ condition_to_expr tokyoCondition = .ok (.unaryNot tokyoBase)
    ∧ renderExpr (.unaryNot tokyoBase) = "NOT city = \x27Tokyo\x27" :=
  ⟨⟨rfl, rfl⟩, negate_wraps_not tokyoCondition tokyoBase rfl rfl, rfl⟩

/-! ### C9: determinism -/

/-- C9: `generate_sql` is a pure function of the node graph and the
pagination argument: equal inputs give the identical result. Its Rust
signature takes the graph behind a shared reference and returns a fresh
`Result<String, String>`, so the embedding as a total Lean function is
itself the statement that the call neither mutates its input nor depends on
hidden state. -/
theorem generate_sql_deterministic :
    ∀ (g1 g2 : NodeGraph) (p1 p2 : Option (Int × Int)),
      g1 = g2 → p1 = p2 → generateSql g1 p1 = generateSql g2 p2 := by
  intro g1 g2 p1 p2 h1 h2
  rw [h1, h2]

theorem generate_sql_deterministic_witness :
    (usersGraph = usersGraph ∧ (none : Option (Int × Int)) = none)
    ∧ generateSql usersGraph none = generateSql usersGraph none :=
  ⟨⟨rfl, rfl⟩, generate_sql_deterministic usersGraph usersGraph none none rfl rfl⟩

/-! ### Helper lemmas: the AST construction stage never fails, and errors of
`build_where_expr` are discarded by the `if let Ok(..)` in `generate_sql` -/

theorem create_aggregate_function_ok (m : Metric) :
    ∃ e, create_aggregate_function m = .ok e := by
  obtain ⟨fn, col⟩ := m
  cases fn <;> exact ⟨_, rfl⟩

theorem collectResults_create_aggregate_ok (mets : List Metric) :
    ∃ es, collectResults create_aggregate_function mets = .ok es := by
  induction mets with
  | nil => exact ⟨[], rfl⟩
  | cons m rest ih =>
    obtain ⟨es, hes⟩ := ih
    obtain ⟨e, he⟩ := create_aggregate_function_ok m
    exact ⟨e :: es, by simp [collectResults, he, hes]⟩

theorem build_aggregation_projection_ok (agg : AggregationNodeData) :
    ∃ proj, build_aggregation_projection agg = .ok proj := by
  obtain ⟨es, hes⟩ := collectResults_create_aggregate_ok agg.metrics
  refine ⟨agg.dimensions.map (fun dim => SelectItemAst.unnamedExpr (.identifier dim))
      ++ es.map SelectItemAst.unnamedExpr, ?_⟩
  simp [build_aggregation_projection, hes]

theorem buildProjectedSelect_ok (st : InterpState)
    (hid : isBareIdent st.table_name = true) :
    ∃ sel, buildProjectedSelect st = .ok sel := by
  simp only [buildProjectedSelect, parse_base_sql, hid, if_true]
  cases ha : st.aggregation_data with
  | none =>
    cases hc : st.columns.isEmpty <;> simp [hc]
  | some agg =>
    obtain ⟨proj, hproj⟩ := build_aggregation_projection_ok agg
    cases hd : (!agg.dimensions.isEmpty || !agg.metrics.isEmpty) <;> simp [hd, hproj]

theorem buildQueryAst_ok (st : InterpState)
    (hid : isBareIdent st.table_name = true) : ∃ q, buildQueryAst st = .ok q := by
  obtain ⟨sel, hsel⟩ := buildProjectedSelect_ok st hid
  simp only [buildQueryAst, hsel]
  exact ⟨_, rfl⟩

theorem generateSqlFromPath_ok (path : List Node) (pagination : Option (Int × Int))
    (st : InterpState) (hrun : runNodes initState path = .ok st)
    (htab : st.table_name.isEmpty = false)
    (hid : isBareIdent st.table_name = true) :
    ∃ s, generateSqlFromPath path pagination = .ok s := by
  obtain ⟨q, hq⟩ := buildQueryAst_ok st hid
  unfold generateSqlFromPath
  rw [hrun]
  simp only [htab, Bool.false_eq_true, if_false, hq]
  cases pagination with
  | none => exact ⟨_, rfl⟩
  | some p => obtain ⟨limit, offset⟩ := p; exact ⟨_, rfl⟩

theorem applyWhere_of_error (sel : SelectAst) (conds : List FilterCondition)
    (e : String) (h : build_where_expr conds = .error e) :
    applyWhere sel conds = sel := by
  unfold applyWhere
  cases hc : conds.isEmpty <;> simp [hc, h]

theorem buildQueryAst_where_error (st : InterpState) (e : String)
    (h : build_where_expr st.filter_conditions = .error e) :
    buildQueryAst st = buildQueryAst { st with filter_conditions := [] } := by
  cases hsel : buildProjectedSelect st with
  | error e2 =>
    have hsel2 : buildProjectedSelect { st with filter_conditions := [] } = .error e2 := by
      rw [← hsel]; rfl
    simp only [buildQueryAst, hsel, hsel2]
  | ok sel =>
    have hsel2 : buildProjectedSelect { st with filter_conditions := [] } = .ok sel := by
      rw [← hsel]; rfl
    simp only [buildQueryAst, hsel, hsel2,
      applyWhere_of_error sel st.filter_conditions e h]
    rfl

/-! ### C1 (amended): a non-array value under the IN operator makes
`build_where_expr` fail, but `generate_sql` swallows that error -/

theorem condition_in_requires_array (c : FilterCondition)
    (hop : c.operator = .inOp) (hv : c.value.isArr = false) :
    condition_to_expr c = .error "Expected array for \x27in\x27 operator" := by
  obtain ⟨col, op, v, neg⟩ := c
  simp only at hop hv
  subst hop
  simp only [condition_to_expr, filter_operator_to_binary_operator]
  cases v <;> simp_all [parse_array_values, Json.isArr]

/-- C1 (amended): for a filter condition using the `in` operator with a
value that is not a JSON array, the condition translation (and hence
`build_where_expr`) fails with the `InvalidInValue` message; but
`generate_sql` does not propagate any `build_where_expr` error: it builds
the query as if the filter list were empty, so the WHERE clause is omitted
from whatever it returns. In particular, whenever interpretation succeeded,
a table was found and the table name is a bare identifier (so that the base
parse succeeds), `generate_sql` still returns an SQL string. -/
theorem in_value_error_swallowed :
    (∀ c : FilterCondition, c.operator = .inOp → c.value.isArr = false →
        condition_to_expr c = .error "Expected array for \x27in\x27 operator")
    ∧ (∀ (st : InterpState) (e : String),
        build_where_expr st.filter_conditions = .error e →
        buildQueryAst st = buildQueryAst { st with filter_conditions := [] })
    ∧ (∀ (path : List Node) (pagination : Option (Int × Int)) (st : InterpState),
        runNodes initState path = .ok st → st.table_name.isEmpty = false →
        isBareIdent st.table_name = true →
        ∃ s, generateSqlFromPath path pagination = .ok s) :=
  ⟨condition_in_requires_array, buildQueryAst_where_error, generateSqlFromPath_ok⟩

def c1InCondition : FilterCondition :=
  { column := "name", operator := .inOp, value := .str "x", negate := false }

def c1Path : List Node :=
  [usersTableNode,
   { id := "2", node_type := "filter", data := .filter [c1InCondition] }]

def c1State : InterpState :=
  { table_name := "users", columns := [], order_by_list := [], limit_value := none,
    filter_conditions := [c1InCondition], aggregation_data := none,
    has_select_before_aggregation := false }

theorem in_value_error_swallowed_witness :
    (c1InCondition.operator = .inOp ∧ c1InCondition.value.isArr = false
      ∧ runNodes initState c1Path = .ok c1State
      ∧ c1State.table_name.isEmpty = false
      ∧ isBareIdent c1State.table_name = true
      ∧ build_where_expr c1State.filter_conditions =
          .error "Expected array for \x27in\x27 operator")
    ∧ condition_to_expr c1InCondition = .error "Expected array for \x27in\x27 operator"
    ∧ buildQueryAst c1State = buildQueryAst { c1State with filter_conditions := [] }
    ∧ ∃ s, generateSqlFromPath c1Path none = .ok s :=
  ⟨⟨rfl, rfl, rfl, rfl, rfl, rfl⟩,
   in_value_error_swallowed.1 c1InCondition rfl rfl,
   in_value_error_swallowed.2.1 c1State "Expected array for \x27in\x27 operator" rfl,
   in_value_error_swallowed.2.2 c1Path none c1State rfl rfl rfl⟩

/-! ### C2 (amended): empty-valued conditions are excluded; an emptied list
makes `build_where_expr` fail with `NoValidFilters`, but `generate_sql`
swallows that error -/

theorem filter_not_empty_value_idem (l : List FilterCondition) :
    (l.filter (fun c => !is_empty_value c.value)).filter
        (fun c => !is_empty_value c.value)
      = l.filter (fun c => !is_empty_value c.value) := by
  induction l with
  | nil => rfl
  | cons c rest ih =>
    cases hc : is_empty_value c.value <;> simp [List.filter_cons, hc, ih]

theorem build_where_expr_drops_empty (conds : List FilterCondition)
    (hne : (conds.filter (fun c => !is_empty_value c.value)).isEmpty = false) :
    build_where_expr conds =
      build_where_expr (conds.filter (fun c => !is_empty_value c.value)) := by
  have hcne : conds.isEmpty = false := by
    cases hc : conds.isEmpty with
    | false => rfl
    | true =>
      rw [List.isEmpty_iff] at hc
      subst hc
      simp at hne
  unfold build_where_expr
  simp only [hcne, hne, Bool.false_eq_true, if_false, filter_not_empty_value_idem]

theorem build_where_expr_no_valid (conds : List FilterCondition)
    (hcne : conds.isEmpty = false)
    (hempty : (conds.filter (fun c => !is_empty_value c.value)).isEmpty = true) :
    build_where_expr conds =
      .error "No valid filter conditions (all have empty values)" := by
  unfold build_where_expr
  simp only [hcne, hempty, Bool.false_eq_true, if_false, if_true]

/-- C2 (amended): conditions whose value is an empty string, empty array, or
array of all-empty elements are excluded before predicate construction; when
that exclusion leaves zero conditions, `build_where_expr` fails with the
`NoValidFilters` message — but `generate_sql` does not fail: it discards the
error and builds the query as if the filter list were empty, so the SQL is
returned without a WHERE clause. -/
theorem empty_filters_excluded :
    (∀ conds : List FilterCondition,
        (conds.filter (fun c => !is_empty_value c.value)).isEmpty = false →
        build_where_expr conds =
          build_where_expr (conds.filter (fun c => !is_empty_value c.value)))
    ∧ (∀ conds : List FilterCondition,
        conds.isEmpty = false →
        (conds.filter (fun c => !is_empty_value c.value)).isEmpty = true →
        build_where_expr conds =
          .error "No valid filter conditions (all have empty values)")
    ∧ (∀ (st : InterpState) (e : String),
        build_where_expr st.filter_conditions = .error e →
        buildQueryAst st = buildQueryAst { st with filter_conditions := [] }) :=
  ⟨build_where_expr_drops_empty, build_where_expr_no_valid, buildQueryAst_where_error⟩

def c2EmptyCondition : FilterCondition :=
  { column := "city", operator := .eq, value := .str "", negate := false }

def c2State : InterpState :=
  { table_name := "users", columns := [], order_by_list := [], limit_value := none,
    filter_conditions := [c2EmptyCondition], aggregation_data := none,
    has_select_before_aggregation := false }

theorem empty_filters_excluded_witness :
    ((([c2EmptyCondition, tokyoCondition].filter
          (fun c => !is_empty_value c.value)).isEmpty = false)
      ∧ ([c2EmptyCondition] : List FilterCondition).isEmpty = false
      ∧ (([c2EmptyCondition].filter (fun c => !is_empty_value c.value)).isEmpty = true)
      ∧ build_where_expr c2State.filter_conditions =
          .error "No valid filter conditions (all have empty values)")
    ∧ build_where_expr [c2EmptyCondition, tokyoCondition] =
        build_where_expr
          ([c2EmptyCondition, tokyoCondition].filter (fun c => !is_empty_value c.value))
    ∧ build_where_expr [c2EmptyCondition] =
        .error "No valid filter conditions (all have empty values)"
    ∧ buildQueryAst c2State = buildQueryAst { c2State with filter_conditions := [] } :=
  ⟨⟨rfl, rfl, rfl, rfl⟩,
   empty_filters_excluded.1 [c2EmptyCondition, tokyoCondition] rfl,
   empty_filters_excluded.2.1 [c2EmptyCondition] rfl rfl,
   empty_filters_excluded.2.2 c2State
     "No valid filter conditions (all have empty values)" rfl⟩

/-! ### C4 and C10: select before the first aggregation node -/

/-- A node whose `type` string matches the shape of its payload (i.e. whose
serde parse in the Rust code succeeds) and whose kind is one the loop
recognizes. -/
def wellFormedNode (n : Node) : Prop :=
  (n.node_type = "table" ∧ ∃ a, n.data = NodeData.table a)
  ∨ (n.node_type = "select" ∧ ∃ a, n.data = NodeData.select a)
  ∨ (n.node_type = "sort" ∧ ∃ a, n.data = NodeData.sort a)
  ∨ (n.node_type = "limit" ∧ ∃ a, n.data = NodeData.limit a)
  ∨ (n.node_type = "filter" ∧ ∃ a, n.data = NodeData.filter a)
  ∨ (n.node_type = "aggregation" ∧ ∃ a b, n.data = NodeData.aggregation a b)

theorem stepNode_table (st : InterpState) (n : Node) (a : String)
    (hty : n.node_type = "table") (hd : n.data = .table a) :
    stepNode st n = .ok { st with table_name := a } := by
  unfold stepNode
  rw [hty, hd]
  rfl

theorem stepNode_select (st : InterpState) (n : Node) (a : List String)
    (hty : n.node_type = "select") (hd : n.data = .select a) :
    stepNode st n = .ok { st with
        columns := a
        has_select_before_aggregation :=
          if st.aggregation_data.isNone then true
          else st.has_select_before_aggregation } := by
  unfold stepNode
  rw [hty, hd]
  rfl

theorem stepNode_sort (st : InterpState) (n : Node) (a : List OrderByData)
    (hty : n.node_type = "sort") (hd : n.data = .sort a) :
    stepNode st n = .ok { st with order_by_list := a } := by
  unfold stepNode
  rw [hty, hd]
  rfl

theorem stepNode_limit (st : InterpState) (n : Node) (a : Option Int)
    (hty : n.node_type = "limit") (hd : n.data = .limit a) :
    stepNode st n = .ok { st with limit_value := a } := by
  unfold stepNode
  rw [hty, hd]
  rfl

theorem stepNode_filter (st : InterpState) (n : Node) (a : List FilterCondition)
    (hty : n.node_type = "filter") (hd : n.data = .filter a) :
    stepNode st n = .ok { st with filter_conditions := st.filter_conditions ++ a } := by
  unfold stepNode
  rw [hty, hd]
  rfl

theorem stepNode_aggregation_error (st : InterpState) (n : Node)
    (a : List String) (b : List Metric)
    (hty : n.node_type = "aggregation") (hd : n.data = .aggregation a b)
    (hflag : st.has_select_before_aggregation = true) :
    stepNode st n = .error "Cannot use Aggregation after Select node. Please remove the Select node or reorder the nodes." := by
  unfold stepNode
  rw [hty, hd]
  simp [hflag]

theorem stepNode_aggregation_ok (st : InterpState) (n : Node)
    (a : List String) (b : List Metric)
    (hty : n.node_type = "aggregation") (hd : n.data = .aggregation a b)
    (hflag : st.has_select_before_aggregation = false) :
    stepNode st n = .ok { st with
        aggregation_data := some { dimensions := a, metrics := b } } := by
  unfold stepNode
  rw [hty, hd]
  simp [hflag]

/-- Interpreting a run of well-formed non-aggregation nodes always succeeds,
keeps the recorded aggregation unchanged, and never clears the
select-before-aggregation flag. -/
theorem runNodes_wf_no_agg (l : List Node) :
    ∀ st : InterpState,
      (∀ n ∈ l, wellFormedNode n ∧ n.node_type ≠ "aggregation") →
      ∃ st', runNodes st l = .ok st'
        ∧ st'.aggregation_data = st.aggregation_data
        ∧ (st.has_select_before_aggregation = true →
            st'.has_select_before_aggregation = true) := by
  induction l with
  | nil => intro st _; exact ⟨st, rfl, rfl, fun h => h⟩
  | cons n rest ih =>
    intro st hall
    obtain ⟨hwf, hna⟩ := hall n (by simp)
    have hrest : ∀ m ∈ rest, wellFormedNode m ∧ m.node_type ≠ "aggregation" :=
      fun m hm => hall m (by simp [hm])
    rw [runNodes_cons]
    rcases hwf with ⟨hty, a, hd⟩ | ⟨hty, a, hd⟩ | ⟨hty, a, hd⟩ | ⟨hty, a, hd⟩
      | ⟨hty, a, hd⟩ | ⟨hty, a, b, hd⟩
    · rw [stepNode_table st n a hty hd]
      obtain ⟨st', h1, h2, h3⟩ := ih _ hrest
      exact ⟨st', h1, h2, h3⟩
    · rw [stepNode_select st n a hty hd]
      obtain ⟨st', h1, h2, h3⟩ := ih _ hrest
      refine ⟨st', h1, by simpa using h2, fun hf => h3 ?_⟩
      simp only
      cases hagg : st.aggregation_data.isNone <;> simp [hf]
    · rw [stepNode_sort st n a hty hd]
      obtain ⟨st', h1, h2, h3⟩ := ih _ hrest
      exact ⟨st', h1, h2, h3⟩
    · rw [stepNode_limit st n a hty hd]
      obtain ⟨st', h1, h2, h3⟩ := ih _ hrest
      exact ⟨st', h1, h2, h3⟩
    · rw [stepNode_filter st n a hty hd]
      obtain ⟨st', h1, h2, h3⟩ := ih _ hrest
      exact ⟨st', h1, h2, h3⟩
    · exact absurd hty hna

theorem runNodes_append_ok (l1 l2 : List Node) (st st1 : InterpState)
    (h : runNodes st l1 = .ok st1) :
    runNodes st (l1 ++ l2) = runNodes st1 l2 := by
  rw [runNodes_append, h]

theorem runNodes_cons_step_ok (st st1 : InterpState) (n : Node) (rest : List Node)
    (h : stepNode st n = .ok st1) :
    runNodes st (n :: rest) = runNodes st1 rest := by
  rw [runNodes_cons, h]

theorem runNodes_cons_step_error (st : InterpState) (e : String) (n : Node)
    (rest : List Node) (h : stepNode st n = .error e) :
    runNodes st (n :: rest) = .error e := by
  rw [runNodes_cons, h]

/-- A select node (any column list) followed later by an aggregation node,
with no aggregation node in between nor before, drives the loop into the
`AggregationAfterSelect` error. -/
theorem runNodes_select_then_agg
    (p1 p2 p3 : List Node) (nSel nAgg : Node) (cols : List String)
    (dims : List String) (mets : List Metric) (st : InterpState)
    (hagg0 : st.aggregation_data = none)
    (h1 : ∀ n ∈ p1, wellFormedNode n ∧ n.node_type ≠ "aggregation")
    (h2 : ∀ n ∈ p2, wellFormedNode n ∧ n.node_type ≠ "aggregation")
    (hsty : nSel.node_type = "select") (hsd : nSel.data = .select cols)
    (haty : nAgg.node_type = "aggregation") (had : nAgg.data = .aggregation dims mets) :
    runNodes st (p1 ++ nSel :: (p2 ++ nAgg :: p3)) =
      .error "Cannot use Aggregation after Select node. Please remove the Select node or reorder the nodes." := by
  obtain ⟨st1, hst1, hagg1, _⟩ := runNodes_wf_no_agg p1 st h1
  rw [runNodes_append_ok _ _ _ _ hst1]
  rw [runNodes_cons_step_ok _ _ _ _ (stepNode_select st1 nSel cols hsty hsd)]
  have hagg1' : st1.aggregation_data = none := hagg1.trans hagg0
  simp only [hagg1', Option.isNone_none, if_true]
  obtain ⟨st3, hst3, hagg3, hflag3⟩ :=
    runNodes_wf_no_agg p2
      { st1 with
          columns := cols
          aggregation_data := none
          has_select_before_aggregation := true } h2
  rw [runNodes_append_ok _ _ _ _ hst3]
  exact runNodes_cons_step_error _ _ _ _
    (stepNode_aggregation_error st3 nAgg dims mets haty had (hflag3 rfl))

/-- C4 (amended): a Select node with a non-empty column list occurring before
the FIRST Aggregation node in path order (no aggregation node precedes it or
sits between them) makes `generate_sql` fail, and the error text is exactly
"Cannot use Aggregation after Select node. Please remove the Select node or
reorder the nodes." (A select sitting after the first aggregation does not
trigger the error; see the counterexample.) -/
theorem select_before_first_aggregation_errors :
    ∀ (g : NodeGraph) (pagination : Option (Int × Int)) (p1 p2 p3 : List Node)
      (nSel nAgg : Node) (cols dims : List String) (mets : List Metric),
      buildPath g = some (.ok (p1 ++ nSel :: (p2 ++ nAgg :: p3))) →
      (∀ n ∈ p1, wellFormedNode n ∧ n.node_type ≠ "aggregation") →
      (∀ n ∈ p2, wellFormedNode n ∧ n.node_type ≠ "aggregation") →
      nSel.node_type = "select" → nSel.data = .select cols → cols ≠ [] →
      nAgg.node_type = "aggregation" → nAgg.data = .aggregation dims mets →
      generateSql g pagination =
        some (.error "Cannot use Aggregation after Select node. Please remove the Select node or reorder the nodes.") := by
  intro g pagination p1 p2 p3 nSel nAgg cols dims mets hb h1 h2 hty hd _ haty had
  have hrun := runNodes_select_then_agg p1 p2 p3 nSel nAgg cols dims mets
    initState rfl h1 h2 hty hd haty had
  have hpath : generateSqlFromPath (p1 ++ nSel :: (p2 ++ nAgg :: p3)) pagination =
      .error "Cannot use Aggregation after Select node. Please remove the Select node or reorder the nodes." := by
    unfold generateSqlFromPath
    rw [hrun]
  unfold generateSql
  rw [hb]
  exact congrArg some hpath

/-- C10: a Select node with an EMPTY column list occurring before the first
Aggregation node also makes `generate_sql` fail with the
`AggregationAfterSelect` message: the flag is set for every select node seen
while no aggregation has been recorded, regardless of the column list. -/
theorem empty_select_before_aggregation_errors :
    ∀ (g : NodeGraph) (pagination : Option (Int × Int)) (p1 p2 p3 : List Node)
      (nSel nAgg : Node) (dims : List String) (mets : List Metric),
      buildPath g = some (.ok (p1 ++ nSel :: (p2 ++ nAgg :: p3))) →
      (∀ n ∈ p1, wellFormedNode n ∧ n.node_type ≠ "aggregation") →
      (∀ n ∈ p2, wellFormedNode n ∧ n.node_type ≠ "aggregation") →
      nSel.node_type = "select" → nSel.data = .select [] →
      nAgg.node_type = "aggregation" → nAgg.data = .aggregation dims mets →
      generateSql g pagination =
        some (.error "Cannot use Aggregation after Select node. Please remove the Select node or reorder the nodes.") := by
  intro g pagination p1 p2 p3 nSel nAgg dims mets hb h1 h2 hty hd haty had
  have hrun := runNodes_select_then_agg p1 p2 p3 nSel nAgg [] dims mets
    initState rfl h1 h2 hty hd haty had
  have hpath : generateSqlFromPath (p1 ++ nSel :: (p2 ++ nAgg :: p3)) pagination =
      .error "Cannot use Aggregation after Select node. Please remove the Select node or reorder the nodes." := by
    unfold generateSqlFromPath
    rw [hrun]
  unfold generateSql
  rw [hb]
  exact congrArg some hpath

def productsTableNode : Node :=
  { id := "1", node_type := "table", data := .table "products" }

def c4wSelect : Node :=
  { id := "2", node_type := "select", data := .select ["id", "name"] }

def c4wAgg : Node :=
  { id := "3", node_type := "aggregation",
    data := .aggregation ["category"] [{ function := .countAll, column := "" }] }

def c4WitnessGraph : NodeGraph :=
  { selected_node_id := "3"
    nodes := [productsTableNode, c4wSelect, c4wAgg]
    edges := [{ source := "1", target := "2" }, { source := "2", target := "3" }] }

theorem productsTable_wf :
    ∀ n ∈ [productsTableNode], wellFormedNode n ∧ n.node_type ≠ "aggregation" := by
  intro n hn
  simp only [List.mem_singleton] at hn
  subst hn
  exact ⟨Or.inl ⟨rfl, "products", rfl⟩, by decide⟩

theorem nil_wf :
    ∀ n ∈ ([] : List Node), wellFormedNode n ∧ n.node_type ≠ "aggregation" := by
  intro n hn
  exact absurd hn (List.not_mem_nil n)

theorem select_before_first_aggregation_errors_witness :
    (buildPath c4WitnessGraph =
        some (.ok ([productsTableNode] ++ c4wSelect :: ([] ++ c4wAgg :: [])))
      ∧ c4wSelect.node_type = "select"
      ∧ c4wSelect.data = .select ["id", "name"]
      ∧ (["id", "name"] : List String) ≠ []
      ∧ c4wAgg.node_type = "aggregation"
      ∧ c4wAgg.data = .aggregation ["category"] [{ function := .countAll, column := "" }])
    ∧ generateSql c4WitnessGraph none =
        some (.error "Cannot use Aggregation after Select node. Please remove the Select node or reorder the nodes.") :=
  ⟨⟨rfl, rfl, rfl, by decide, rfl, rfl⟩,
   select_before_first_aggregation_errors c4WitnessGraph none
     [productsTableNode] [] [] c4wSelect c4wAgg ["id", "name"] ["category"]
     [{ function := .countAll, column := "" }]
     rfl productsTable_wf nil_wf rfl rfl (by decide) rfl rfl⟩

def c10Select : Node :=
  { id := "2", node_type := "select", data := .select [] }

def c10Agg : Node :=
  { id := "3", node_type := "aggregation", data := .aggregation ["category"] [] }

def c10WitnessGraph : NodeGraph :=
  { selected_node_id := "3"
    nodes := [productsTableNode, c10Select, c10Agg]
    edges := [{ source := "1", target := "2" }, { source := "2", target := "3" }] }

theorem empty_select_before_aggregation_errors_witness :
    (buildPath c10WitnessGraph =
        some (.ok ([productsTableNode] ++ c10Select :: ([] ++ c10Agg :: [])))
      ∧ c10Select.node_type = "select"
      ∧ c10Select.data = .select []
      ∧ c10Agg.node_type = "aggregation"
      ∧ c10Agg.data = .aggregation ["category"] [])
    ∧ generateSql c10WitnessGraph none =
        some (.error "Cannot use Aggregation after Select node. Please remove the Select node or reorder the nodes.") :=
  ⟨⟨rfl, rfl, rfl, rfl, rfl⟩,
   empty_select_before_aggregation_errors c10WitnessGraph none
     [productsTableNode] [] [] c10Select c10Agg ["category"] []
     rfl productsTable_wf nil_wf rfl rfl rfl rfl⟩

/-! ### C7: aggregation projection order and GROUP BY -/

/-- The expression `create_aggregate_function` builds for a metric (its `Ok`
payload; the function never fails). -/
def metricExpr (m : Metric) : SqlExpr :=
  match m.function with
  | .countAll => .funcWildcard "COUNT"
  | _ => .funcColumn (aggregate_function_name m.function) m.column

/-- The rendered text of a metric expression. -/
def metricSql (m : Metric) : String :=
  match m.function with
  | .countAll => "COUNT(*)"
  | _ => aggregate_function_name m.function ++ "(" ++ m.column ++ ")"

theorem create_aggregate_function_eq (m : Metric) :
    create_aggregate_function m = .ok (metricExpr m) := by
  obtain ⟨fn, col⟩ := m
  cases fn <;> rfl

theorem renderExpr_metricExpr (m : Metric) :
    renderExpr (metricExpr m) = metricSql m := by
  obtain ⟨fn, col⟩ := m
  cases fn <;> rfl

theorem collectResults_create_eq (mets : List Metric) :
    collectResults create_aggregate_function mets = .ok (mets.map metricExpr) := by
  induction mets with
  | nil => rfl
  | cons m rest ih => simp [collectResults, create_aggregate_function_eq, ih]

theorem build_aggregation_projection_eq (agg : AggregationNodeData) :
    build_aggregation_projection agg =
      .ok (agg.dimensions.map (fun dim => SelectItemAst.unnamedExpr (.identifier dim))
            ++ agg.metrics.map (fun m => SelectItemAst.unnamedExpr (metricExpr m))) := by
  simp [build_aggregation_projection, collectResults_create_eq, List.map_map,
    Function.comp]

theorem applyWhere_projection (sel : SelectAst) (conds : List FilterCondition) :
    (applyWhere sel conds).projection = sel.projection := by
  unfold applyWhere
  cases hc : conds.isEmpty with
  | true => simp [hc]
  | false =>
    simp only [hc, Bool.not_false, if_true]
    cases hw : build_where_expr conds <;> rfl

theorem applyWhere_group_by (sel : SelectAst) (conds : List FilterCondition) :
    (applyWhere sel conds).group_by = sel.group_by := by
  unfold applyWhere
  cases hc : conds.isEmpty with
  | true => simp [hc]
  | false =>
    simp only [hc, Bool.not_false, if_true]
    cases hw : build_where_expr conds <;> rfl

theorem applyGroupBy_projection (sel : SelectAst) (a : Option AggregationNodeData) :
    (applyGroupBy sel a).projection = sel.projection := by
  unfold applyGroupBy
  cases a with
  | none => rfl
  | some agg => cases hd : (!agg.dimensions.isEmpty) <;> simp [hd]

theorem applyGroupBy_group_by_some (sel : SelectAst) (agg : AggregationNodeData) :
    (applyGroupBy sel (some agg)).group_by =
      if !agg.dimensions.isEmpty then agg.dimensions.map SqlExpr.identifier
      else sel.group_by := by
  unfold applyGroupBy
  cases hd : (!agg.dimensions.isEmpty) <;> simp [hd]

theorem map_renderItem_ident (l : List String) :
    l.map (renderSelectItem ∘ fun dim => SelectItemAst.unnamedExpr (SqlExpr.identifier dim))
      = l := by
  induction l with
  | nil => rfl
  | cons d rest ih =>
    rw [List.map_cons, ih]
    rfl

theorem map_renderItem_metric (l : List Metric) :
    l.map (renderSelectItem ∘ fun m => SelectItemAst.unnamedExpr (metricExpr m))
      = l.map metricSql := by
  induction l with
  | nil => rfl
  | cons m rest ih =>
    rw [List.map_cons, List.map_cons, ih]
    exact congrArg (fun s => s :: rest.map metricSql) (renderExpr_metricExpr m)

theorem map_renderExpr_ident (l : List String) :
    (l.map SqlExpr.identifier).map renderExpr = l := by
  induction l with
  | nil => rfl
  | cons d rest ih =>
    rw [List.map_cons, List.map_cons, ih]
    rfl

theorem renderProjection_agg (agg : AggregationNodeData) :
    renderProjection
      (agg.dimensions.map (fun dim => SelectItemAst.unnamedExpr (.identifier dim))
        ++ agg.metrics.map (fun m => SelectItemAst.unnamedExpr (metricExpr m)))
    = String.intercalate ", " (agg.dimensions ++ agg.metrics.map metricSql) := by
  unfold renderProjection
  rw [List.map_append, List.map_map, List.map_map,
    map_renderItem_ident, map_renderItem_metric]

theorem isEmpty_map (f : α → β) (l : List α) : (l.map f).isEmpty = l.isEmpty := by
  cases l <;> rfl

/-- C7: whenever interpretation recorded an aggregation with non-empty
dimensions or metrics, the built query's projection is all dimension columns
first (declaration order) followed by all metric expressions (declaration
order); its GROUP BY list is the dimension list verbatim and is empty (the
clause is omitted from the rendered text) exactly when the dimensions are
empty, even with metrics present. The rendered SQL is the rendering of that
query; the bare-identifier hypothesis on the table name keeps the base parse
on the domain where the model is exact. -/
theorem aggregation_projection_order :
    ∀ (path : List Node) (st : InterpState) (agg : AggregationNodeData),
      runNodes initState path = .ok st →
      st.table_name.isEmpty = false →
      isBareIdent st.table_name = true →
      st.aggregation_data = some agg →
      (agg.dimensions.isEmpty = false ∨ agg.metrics.isEmpty = false) →
      ∃ q, buildQueryAst st = .ok q
        ∧ generateSqlFromPath path none = .ok (renderQuery q)
        ∧ q.body.projection =
            agg.dimensions.map (fun dim => SelectItemAst.unnamedExpr (.identifier dim))
              ++ agg.metrics.map (fun m => SelectItemAst.unnamedExpr (metricExpr m))
        ∧ renderProjection q.body.projection =
            String.intercalate ", " (agg.dimensions ++ agg.metrics.map metricSql)
        ∧ q.body.group_by =
            (if agg.dimensions.isEmpty then []
             else agg.dimensions.map SqlExpr.identifier)
        ∧ renderGroupBy q.body.group_by =
            (if agg.dimensions.isEmpty then ""
             else " GROUP BY " ++ String.intercalate ", " agg.dimensions) := by
  intro path st agg hrun htab hid hagg hne
  have hcond : (!agg.dimensions.isEmpty || !agg.metrics.isEmpty) = true := by
    rcases hne with h | h <;> simp [h]
  have hps : buildProjectedSelect st = .ok
      { projection :=
          agg.dimensions.map (fun dim => SelectItemAst.unnamedExpr (.identifier dim))
            ++ agg.metrics.map (fun m => SelectItemAst.unnamedExpr (metricExpr m))
        table := st.table_name, selection := none, group_by := [] } := by
    simp only [buildProjectedSelect, parse_base_sql, hid, if_true, hagg, hcond,
      build_aggregation_projection_eq]
  have hq : buildQueryAst st = .ok
      { body := applyGroupBy (applyWhere
          { projection :=
              agg.dimensions.map (fun dim => SelectItemAst.unnamedExpr (.identifier dim))
                ++ agg.metrics.map (fun m => SelectItemAst.unnamedExpr (metricExpr m))
            table := st.table_name, selection := none, group_by := [] }
          st.filter_conditions) st.aggregation_data
        order_by :=
          if !st.order_by_list.isEmpty then
            some (st.order_by_list.map (fun o =>
              { column := o.column
                asc := some (match o.direction with | .asc => true | .desc => false) }))
          else none
        limit := st.limit_value } := by
    simp only [buildQueryAst, hps]
  refine ⟨_, hq, ?_, ?_, ?_, ?_, ?_⟩
  · unfold generateSqlFromPath
    rw [hrun]
    dsimp only
    simp only [htab, Bool.false_eq_true, if_false, hq]
  · dsimp only
    rw [applyGroupBy_projection, applyWhere_projection]
  · dsimp only
    rw [applyGroupBy_projection, applyWhere_projection]
    exact renderProjection_agg agg
  · dsimp only
    rw [hagg, applyGroupBy_group_by_some, applyWhere_group_by]
    cases hd : agg.dimensions.isEmpty with
    | true => simp [hd]
    | false => simp [hd]
  · dsimp only
    rw [hagg, applyGroupBy_group_by_some, applyWhere_group_by]
    cases hd : agg.dimensions.isEmpty with
    | true => simp [hd, renderGroupBy]
    | false =>
      simp only [hd, Bool.not_false, if_true, Bool.false_eq_true, if_false,
        renderGroupBy, isEmpty_map, map_renderExpr_ident]

def c7AggData : AggregationNodeData :=
  { dimensions := ["category"], metrics := [{ function := .countAll, column := "" }] }

def c7Path : List Node :=
  [productsTableNode,
   { id := "2", node_type := "aggregation",
     data := .aggregation ["category"] [{ function := .countAll, column := "" }] }]

def c7State : InterpState :=
  { table_name := "products", columns := [], order_by_list := [], limit_value := none,
    filter_conditions := [], aggregation_data := some c7AggData,
    has_select_before_aggregation := false }

theorem aggregation_projection_order_witness :
    (runNodes initState c7Path = .ok c7State
      ∧ c7State.table_name.isEmpty = false
      ∧ isBareIdent c7State.table_name = true
      ∧ c7State.aggregation_data = some c7AggData
      ∧ (c7AggData.dimensions.isEmpty = false ∨ c7AggData.metrics.isEmpty = false))
    ∧ ∃ q, buildQueryAst c7State = .ok q
        ∧ generateSqlFromPath c7Path none = .ok (renderQuery q)
        ∧ q.body.projection =
            c7AggData.dimensions.map
                (fun dim => SelectItemAst.unnamedExpr (.identifier dim))
              ++ c7AggData.metrics.map
                (fun m => SelectItemAst.unnamedExpr (metricExpr m))
        ∧ renderProjection q.body.projection =
            String.intercalate ", "
              (c7AggData.dimensions ++ c7AggData.metrics.map metricSql)
        ∧ q.body.group_by =
            (if c7AggData.dimensions.isEmpty then []
             else c7AggData.dimensions.map SqlExpr.identifier)
        ∧ renderGroupBy q.body.group_by =
            (if c7AggData.dimensions.isEmpty then ""
             else " GROUP BY " ++ String.intercalate ", " c7AggData.dimensions) :=
  ⟨⟨rfl, rfl, rfl, rfl, Or.inl rfl⟩,
   aggregation_projection_order c7Path c7State c7AggData rfl rfl rfl rfl (Or.inl rfl)⟩

/-! ### C5: order-independence for one-of-each {table, select, sort, limit}
chains -/

/-- Every node of the chain is one of the four overwrite-kinds, carrying the
fixed payloads `t`, `c`, `o`, `l` of its kind. -/
def singleKindNode (t : String) (c : List String) (o : List OrderByData)
    (l : Option Int) (n : Node) : Prop :=
  (n.node_type = "table" ∧ n.data = .table t)
  ∨ (n.node_type = "select" ∧ n.data = .select c)
  ∨ (n.node_type = "sort" ∧ n.data = .sort o)
  ∨ (n.node_type = "limit" ∧ n.data = .limit l)

/-- Folding the interpreter over such a chain always succeeds; each of the
four overwritten fields ends at its kind's payload when a node of that kind
occurs (at the starting value otherwise); filters and aggregation are
untouched; the select-before-aggregation flag is set exactly by a select
node seen with no aggregation recorded. -/
theorem runNodes_four (t : String) (c : List String) (o : List OrderByData)
    (l : Option Int) :
    ∀ (p : List Node) (st : InterpState),
      (∀ n ∈ p, singleKindNode t c o l n) →
      ∃ st', runNodes st p = .ok st'
        ∧ ((∃ n ∈ p, n.node_type = "table") → st'.table_name = t)
        ∧ ((∃ n ∈ p, n.node_type = "select") → st'.columns = c)
        ∧ ((∃ n ∈ p, n.node_type = "sort") → st'.order_by_list = o)
        ∧ ((∃ n ∈ p, n.node_type = "limit") → st'.limit_value = l)
        ∧ (¬(∃ n ∈ p, n.node_type = "table") → st'.table_name = st.table_name)
        ∧ (¬(∃ n ∈ p, n.node_type = "select") → st'.columns = st.columns)
        ∧ (¬(∃ n ∈ p, n.node_type = "sort") → st'.order_by_list = st.order_by_list)
        ∧ (¬(∃ n ∈ p, n.node_type = "limit") → st'.limit_value = st.limit_value)
        ∧ st'.filter_conditions = st.filter_conditions
        ∧ st'.aggregation_data = st.aggregation_data
        ∧ (st.aggregation_data = none ∧ (∃ n ∈ p, n.node_type = "select") →
            st'.has_select_before_aggregation = true)
        ∧ (st.aggregation_data = none ∧ ¬(∃ n ∈ p, n.node_type = "select") →
            st'.has_select_before_aggregation = st.has_select_before_aggregation) := by
  intro p
  induction p with
  | nil =>
    intro st _
    refine ⟨st, rfl, ?_, ?_, ?_, ?_, fun _ => rfl, fun _ => rfl, fun _ => rfl,
      fun _ => rfl, rfl, rfl, ?_, fun _ => rfl⟩
    all_goals
      first
      | { rintro ⟨m, hm, _⟩; exact absurd hm (List.not_mem_nil m) }
      | { rintro ⟨_, m, hm, _⟩; exact absurd hm (List.not_mem_nil m) }
  | cons n rest ih =>
    intro st hall
    have hn := hall n (by simp)
    have hrest : ∀ m ∈ rest, singleKindNode t c o l m :=
      fun m hm => hall m (by simp [hm])
    have mem_tail : ∀ (k : String), (∃ m ∈ n :: rest, m.node_type = k) →
        n.node_type ≠ k → ∃ m ∈ rest, m.node_type = k := by
      rintro k ⟨m, hm, hmty⟩ hne
      rcases List.mem_cons.mp hm with rfl | hm'
      · exact absurd hmty hne
      · exact ⟨m, hm', hmty⟩
    have not_tail : ∀ (k : String), ¬(∃ m ∈ n :: rest, m.node_type = k) →
        ¬∃ m ∈ rest, m.node_type = k := by
      rintro k hnx ⟨m, hm, hmty⟩
      exact hnx ⟨m, List.mem_cons_of_mem n hm, hmty⟩
    rcases hn with ⟨hty, hd⟩ | ⟨hty, hd⟩ | ⟨hty, hd⟩ | ⟨hty, hd⟩
    · -- table node
      rw [runNodes_cons_step_ok _ _ _ _ (stepNode_table st n t hty hd)]
      obtain ⟨st', h1, hpt, hps, hpo, hpl, hnt, hns, hno, hnl, hf, ha, hfp, hfn⟩ :=
        ih { st with table_name := t } hrest
      refine ⟨st', h1, ?_, ?_, ?_, ?_, ?_, ?_, ?_, ?_, hf, ha, ?_, ?_⟩
      · intro _
        by_cases hrt : ∃ m ∈ rest, m.node_type = "table"
        · exact hpt hrt
        · exact hnt hrt
      · intro hx
        exact hps (mem_tail "select" hx (by rw [hty]; decide))
      · intro hx
        exact hpo (mem_tail "sort" hx (by rw [hty]; decide))
      · intro hx
        exact hpl (mem_tail "limit" hx (by rw [hty]; decide))
      · intro hnx
        exact absurd ⟨n, by simp, hty⟩ hnx
      · intro hnx
        exact hns (not_tail "select" hnx)
      · intro hnx
        exact hno (not_tail "sort" hnx)
      · intro hnx
        exact hnl (not_tail "limit" hnx)
      · rintro ⟨hagg, hx⟩
        exact hfp ⟨hagg, mem_tail "select" hx (by rw [hty]; decide)⟩
      · rintro ⟨hagg, hnx⟩
        exact hfn ⟨hagg, not_tail "select" hnx⟩
    · -- select node
      rw [runNodes_cons_step_ok _ _ _ _ (stepNode_select st n c hty hd)]
      obtain ⟨st', h1, hpt, hps, hpo, hpl, hnt, hns, hno, hnl, hf, ha, hfp, hfn⟩ :=
        ih { st with
              columns := c
              has_select_before_aggregation :=
                if st.aggregation_data.isNone then true
                else st.has_select_before_aggregation } hrest
      refine ⟨st', h1, ?_, ?_, ?_, ?_, ?_, ?_, ?_, ?_, hf, ha, ?_, ?_⟩
      · intro hx
        exact hpt (mem_tail "table" hx (by rw [hty]; decide))
      · intro _
        by_cases hrs : ∃ m ∈ rest, m.node_type = "select"
        · exact hps hrs
        · exact hns hrs
      · intro hx
        exact hpo (mem_tail "sort" hx (by rw [hty]; decide))
      · intro hx
        exact hpl (mem_tail "limit" hx (by rw [hty]; decide))
      · intro hnx
        exact hnt (not_tail "table" hnx)
      · intro hnx
        exact absurd ⟨n, by simp, hty⟩ hnx
      · intro hnx
        exact hno (not_tail "sort" hnx)
      · intro hnx
        exact hnl (not_tail "limit" hnx)
      · rintro ⟨hagg, _⟩
        have hflag1 : (if st.aggregation_data.isNone then true
            else st.has_select_before_aggregation) = true := by
          simp [hagg]
        by_cases hrs : ∃ m ∈ rest, m.node_type = "select"
        · exact hfp ⟨hagg, hrs⟩
        · exact (hfn ⟨hagg, hrs⟩).trans hflag1
      · rintro ⟨hagg, hnx⟩
        exact absurd ⟨n, by simp, hty⟩ hnx
    · -- sort node
      rw [runNodes_cons_step_ok _ _ _ _ (stepNode_sort st n o hty hd)]
      obtain ⟨st', h1, hpt, hps, hpo, hpl, hnt, hns, hno, hnl, hf, ha, hfp, hfn⟩ :=
        ih { st with order_by_list := o } hrest
      refine ⟨st', h1, ?_, ?_, ?_, ?_, ?_, ?_, ?_, ?_, hf, ha, ?_, ?_⟩
      · intro hx
        exact hpt (mem_tail "table" hx (by rw [hty]; decide))
      · intro hx
        exact hps (mem_tail "select" hx (by rw [hty]; decide))
      · intro _
        by_cases hro : ∃ m ∈ rest, m.node_type = "sort"
        · exact hpo hro
        · exact hno hro
      · intro hx
        exact hpl (mem_tail "limit" hx (by rw [hty]; decide))
      · intro hnx
        exact hnt (not_tail "table" hnx)
      · intro hnx
        exact hns (not_tail "select" hnx)
      · intro hnx
        exact absurd ⟨n, by simp, hty⟩ hnx
      · intro hnx
        exact hnl (not_tail "limit" hnx)
      · rintro ⟨hagg, hx⟩
        exact hfp ⟨hagg, mem_tail "select" hx (by rw [hty]; decide)⟩
      · rintro ⟨hagg, hnx⟩
        exact hfn ⟨hagg, not_tail "select" hnx⟩
    · -- limit node
      rw [runNodes_cons_step_ok _ _ _ _ (stepNode_limit st n l hty hd)]
      obtain ⟨st', h1, hpt, hps, hpo, hpl, hnt, hns, hno, hnl, hf, ha, hfp, hfn⟩ :=
        ih { st with limit_value := l } hrest
      refine ⟨st', h1, ?_, ?_, ?_, ?_, ?_, ?_, ?_, ?_, hf, ha, ?_, ?_⟩
      · intro hx
        exact hpt (mem_tail "table" hx (by rw [hty]; decide))
      · intro hx
        exact hps (mem_tail "select" hx (by rw [hty]; decide))
      · intro hx
        exact hpo (mem_tail "sort" hx (by rw [hty]; decide))
      · intro _
        by_cases hrl : ∃ m ∈ rest, m.node_type = "limit"
        · exact hpl hrl
        · exact hnl hrl
      · intro hnx
        exact hnt (not_tail "table" hnx)
      · intro hnx
        exact hns (not_tail "select" hnx)
      · intro hnx
        exact hno (not_tail "sort" hnx)
      · intro hnx
        exact absurd ⟨n, by simp, hty⟩ hnx
      · rintro ⟨hagg, hx⟩
        exact hfp ⟨hagg, mem_tail "select" hx (by rw [hty]; decide)⟩
      · rintro ⟨hagg, hnx⟩
        exact hfn ⟨hagg, not_tail "select" hnx⟩

theorem runNodes_four_complete (t : String) (c : List String) (o : List OrderByData)
    (l : Option Int) (p : List Node)
    (hall : ∀ n ∈ p, singleKindNode t c o l n)
    (ht : ∃ n ∈ p, n.node_type = "table")
    (hs : ∃ n ∈ p, n.node_type = "select")
    (ho : ∃ n ∈ p, n.node_type = "sort")
    (hl : ∃ n ∈ p, n.node_type = "limit") :
    runNodes initState p = .ok
      { table_name := t, columns := c, order_by_list := o, limit_value := l,
        filter_conditions := [], aggregation_data := none,
        has_select_before_aggregation := true } := by
  obtain ⟨st', h1, hpt, hps, hpo, hpl, _, _, _, _, hf, ha, hfp, _⟩ :=
    runNodes_four t c o l p initState hall
  obtain ⟨a1, a2, a3, a4, a5, a6, a7⟩ := st'
  dsimp only at hpt hps hpo hpl hf ha hfp
  rw [h1, hpt ht, hps hs, hpo ho, hpl hl, hf, ha, hfp ⟨rfl, hs⟩]
  rfl

/-- C5: for two graphs whose resolved chains consist only of table, select,
sort and limit nodes with equal payloads per kind (one of each kind present;
duplicates carrying the same payload are also allowed), the generated SQL is
identical regardless of the order of the nodes in the chain. -/
theorem generate_sql_order_independent :
    ∀ (g1 g2 : NodeGraph) (p1 p2 : List Node) (pagination : Option (Int × Int))
      (t : String) (c : List String) (o : List OrderByData) (l : Option Int),
      buildPath g1 = some (.ok p1) → buildPath g2 = some (.ok p2) →
      (∀ n ∈ p1, singleKindNode t c o l n) → (∀ n ∈ p2, singleKindNode t c o l n) →
      (∃ n ∈ p1, n.node_type = "table") → (∃ n ∈ p1, n.node_type = "select") →
      (∃ n ∈ p1, n.node_type = "sort") → (∃ n ∈ p1, n.node_type = "limit") →
      (∃ n ∈ p2, n.node_type = "table") → (∃ n ∈ p2, n.node_type = "select") →
      (∃ n ∈ p2, n.node_type = "sort") → (∃ n ∈ p2, n.node_type = "limit") →
      generateSql g1 pagination = generateSql g2 pagination := by
  intro g1 g2 p1 p2 pagination t c o l hb1 hb2 hall1 hall2 ht1 hs1 ho1 hl1 ht2 hs2 ho2 hl2
  have h1 := runNodes_four_complete t c o l p1 hall1 ht1 hs1 ho1 hl1
  have h2 := runNodes_four_complete t c o l p2 hall2 ht2 hs2 ho2 hl2
  unfold generateSql
  rw [hb1, hb2]
  refine congrArg some ?_
  unfold generateSqlFromPath
  rw [h1, h2]

def c5SortData : List OrderByData := [{ column := "name", direction := .asc }]

def c5n1 : Node := { id := "1", node_type := "table", data := .table "users" }
def c5n2 : Node := { id := "2", node_type := "select", data := .select ["id", "name"] }
def c5n3 : Node := { id := "3", node_type := "sort", data := .sort c5SortData }
def c5n4 : Node := { id := "4", node_type := "limit", data := .limit (some 10) }

def c5m2 : Node := { id := "2", node_type := "limit", data := .limit (some 10) }
def c5m3 : Node := { id := "3", node_type := "sort", data := .sort c5SortData }
def c5m4 : Node := { id := "4", node_type := "select", data := .select ["id", "name"] }

/-- Chain order table, select, sort, limit. -/
def c5Graph1 : NodeGraph :=
  { selected_node_id := "4"
    nodes := [c5n1, c5n2, c5n3, c5n4]
    edges := [{ source := "1", target := "2" }, { source := "2", target := "3" },
              { source := "3", target := "4" }] }

/-- Chain order table, limit, sort, select, with the same payloads per kind. -/
def c5Graph2 : NodeGraph :=
  { selected_node_id := "4"
    nodes := [c5n1, c5m2, c5m3, c5m4]
    edges := [{ source := "1", target := "2" }, { source := "2", target := "3" },
              { source := "3", target := "4" }] }

def c5Path1 : List Node := [c5n1, c5n2, c5n3, c5n4]
def c5Path2 : List Node := [c5n1, c5m2, c5m3, c5m4]

theorem generate_sql_order_independent_witness :
    generateSql c5Graph1 none = generateSql c5Graph2 none
    ∧ generateSql c5Graph1 none =
        some (.ok "SELECT id, name FROM users ORDER BY name ASC LIMIT 10") :=
  ⟨generate_sql_order_independent c5Graph1 c5Graph2 c5Path1 c5Path2 none
      "users" ["id", "name"] c5SortData (some 10) rfl rfl
      (by
        intro n hn
        simp only [c5Path1, List.mem_cons, List.not_mem_nil, or_false] at hn
        rcases hn with rfl | rfl | rfl | rfl
        · exact Or.inl ⟨rfl, rfl⟩
        · exact Or.inr (Or.inl ⟨rfl, rfl⟩)
        · exact Or.inr (Or.inr (Or.inl ⟨rfl, rfl⟩))
        · exact Or.inr (Or.inr (Or.inr ⟨rfl, rfl⟩)))
      (by
        intro n hn
        simp only [c5Path2, List.mem_cons, List.not_mem_nil, or_false] at hn
        rcases hn with rfl | rfl | rfl | rfl
        · exact Or.inl ⟨rfl, rfl⟩
        · exact Or.inr (Or.inr (Or.inr ⟨rfl, rfl⟩))
        · exact Or.inr (Or.inr (Or.inl ⟨rfl, rfl⟩))
        · exact Or.inr (Or.inl ⟨rfl, rfl⟩))
      ⟨c5n1, by simp [c5Path1], rfl⟩ ⟨c5n2, by simp [c5Path1], rfl⟩
      ⟨c5n3, by simp [c5Path1], rfl⟩ ⟨c5n4, by simp [c5Path1], rfl⟩
      ⟨c5n1, by simp [c5Path2], rfl⟩ ⟨c5m4, by simp [c5Path2], rfl⟩
      ⟨c5m3, by simp [c5Path2], rfl⟩ ⟨c5m2, by simp [c5Path2], rfl⟩,
   rfl⟩
